import Mathlib

/-!
Shallow embedding of mboot.c (unpack and repack of Intel boot.img for Android).

Byte buffers (C memory regions, files and streams) are modelled as a length
together with a total function from offsets to byte values; reads beyond the
end of a file and `malloc`-fresh memory, both indeterminate in C, are modelled
by the total data function resp. by a zero-initialised buffer.  The C library
function `isalnum`, whose nonzero return value is implementation defined, is a
parameter `ia` of every definition that probes the stream; `ia_glibc` below is
the glibc instantiation.  Machine integers are Nat with explicit `% 2^32`
where a `uint32_t` store occurs.
-/

set_option maxRecDepth 100000

/-- A byte buffer: a length and the byte at each offset (meaningful for offsets below `size`). -/
structure Buf where
  size : Nat
  data : Nat → Nat

/-- The empty buffer. -/
def emptyBuf : Buf := ⟨0, fun _ => 0⟩

/-- A window of `len` bytes of `f` starting at offset `start` (models `fread` of a region after `fseek`). -/
def subBuf (f : Buf) (start len : Nat) : Buf := ⟨len, fun i => f.data (start + i)⟩

/-- glibc `isalnum`: the ctype table entry masked with `_ISalnum` (bit value 8) for
the ASCII alphanumerics, 0 otherwise. -/
def ia_glibc (c : Nat) : Nat :=
  if (48 ≤ c ∧ c ≤ 57) ∨ (65 ≤ c ∧ c ≤ 90) ∨ (97 ≤ c ∧ c ≤ 122) then 8 else 0

/-- A hypothetical C library whose `isalnum` returns 2 on every byte; used only to
instantiate theorems that hold for every `isalnum` implementation. -/
def iaTwo (_c : Nat) : Nat := 2

/-- A Boolean-convention C library whose `isalnum` returns 1 on every byte; used only
to instantiate theorems that hold for every `isalnum` implementation. -/
def iaOne (_c : Nat) : Nat := 1

/-- mboot.c `check_byte(f, size, min)` at stream position `pos`: if `size > 1` and the
first byte is NUL it is skipped (shrinking the window by one), the examined byte is
`isalnum`-tested and the verdict is `min < bytes && bytes < origsize`.  The stream
position is restored by the final `fseek`, so only the verdict is returned. -/
def check_byte (ia : Nat → Nat) (f : Buf) (pos size mn : Nat) : Bool :=
  let first := if 1 < size ∧ f.data pos = 0 then f.data (pos + 1) else f.data pos
  decide (mn < ia first ∧ ia first < size)

/-- Length of the initial run of non-NUL bytes of `f` at offset `start`, looking at most
`n` bytes ahead: models the `strlen` performed by `write_string` on the cmdline buffer
(a missing NUL inside the 1024-byte region would make the C `strlen` read past the
buffer, which is undefined; the model stops at the region's end). -/
def strlenWithin (f : Buf) (start : Nat) : Nat → Nat
  | 0 => 0
  | n + 1 => if f.data start = 0 then 0 else strlenWithin f (start + 1) n + 1

/-- Little-endian decoding of 4 bytes at offset `p`, as done by the `*(uint32_t *)buffer`
reads of the kernel/ramdisk size fields on a little-endian machine. -/
def le32f (b : Nat → Nat) (p : Nat) : Nat :=
  b p + b (p + 1) * 256 + b (p + 2) * 65536 + b (p + 3) * 16777216

/-- Little-endian decoding of 4 bytes of a buffer. -/
def le32 (f : Buf) (p : Nat) : Nat := le32f f.data p

/-- The j-th byte of the little-endian store of a `uint32_t` value. -/
def leBytes (v : Nat) : Nat → Nat
  | 0 => v % 256
  | 1 => v / 256 % 256
  | 2 => v / 65536 % 256
  | 3 => v / 16777216 % 256
  | _ => 0

/-- mboot.c unpack, final position of the signature scan: starting at the end of the
header the loop seeks by the deltas 0, 480, 248, 296 (cumulative positions +0, +480,
+728, +1024) and breaks at the first positive 4-byte probe; after the last delta the
position is `p + 1024` whether or not the final probe fires. -/
def sig_end (ia : Nat → Nat) (f : Buf) (p : Nat) : Nat :=
  if check_byte ia f p 4 1 then p
  else if check_byte ia f (p + 480) 4 1 then p + 480
  else if check_byte ia f (p + 728) 4 1 then p + 728
  else p + 1024

/-- Header size located by unpack: 512 when the 4-byte min-1 probe at offset 0 is
negative (`!check_byte` guards the `write_buffer` of the header), otherwise 0. -/
def hdrSizeOf (ia : Nat → Nat) (f : Buf) : Nat :=
  if check_byte ia f 0 4 1 then 0 else 512

/-- Signature size located by unpack: distance from the end of the header to the stop
position of the signature scan. -/
def sigSizeOf (ia : Nat → Nat) (f : Buf) : Nat :=
  sig_end ia f (hdrSizeOf ia f) - hdrSizeOf ia f

/-- Stream offset of the cmdline block (end of header plus signature). -/
def cmOf (ia : Nat → Nat) (f : Buf) : Nat := hdrSizeOf ia f + sigSizeOf ia f

/-- The kernel size field: 4 bytes read little-endian right after the 1024-byte cmdline. -/
def kernelSizeOf (ia : Nat → Nat) (f : Buf) : Nat := le32 f (cmOf ia f + 1024)

/-- The ramdisk size field: the following 4 bytes, read little-endian. -/
def ramdiskSizeOf (ia : Nat → Nat) (f : Buf) : Nat := le32 f (cmOf ia f + 1028)

/-- Bootstub size located by unpack: after skipping 4096 bytes a 2-byte min-0 probe is
made; if it is positive another 4096 bytes are skipped, and the size is the distance
travelled minus the fixed 4096-byte cmdline/parameter block. -/
def bootstubSizeOf (ia : Nat → Nat) (f : Buf) : Nat :=
  if check_byte ia f (cmOf ia f + 8192) 2 0 then 8192 else 4096

/-- Result of unpack: the exit status, the sizes it reports, and the artifacts written,
in emission order. -/
structure UnpackOut where
  exit : Nat
  hdr_size : Nat
  sig_size : Nat
  kernel_size : Nat
  ramdisk_size : Nat
  bootstub_size : Nat
  artifacts : List (String × Buf)

/-- The artifact files written by unpack, in the order the C code writes them: optional
`hdr`, optional `sig`, the NUL-truncated `cmdline.txt`, the 8 bytes following the two
size fields as `parameter`, `bootstub`, then (after the range validations) `kernel`
and `ramdisk.cpio.gz`. -/
def unpackArtifacts (ia : Nat → Nat) (f : Buf) : List (String × Buf) :=
  let hdr_size := hdrSizeOf ia f
  let sig_size := sigSizeOf ia f
  let cm := hdr_size + sig_size
  let a2 := (if check_byte ia f 0 4 1 then ([] : List (String × Buf))
      else [(("hdr" : String), subBuf f 0 512)])
    ++ (if 0 < sig_size then [(("sig" : String), subBuf f hdr_size sig_size)] else [])
    ++ [(("cmdline.txt" : String), subBuf f cm (strlenWithin f cm 1024)),
        (("parameter" : String), subBuf f (cm + 1032) 8),
        (("bootstub" : String), subBuf f (cm + 4096) (bootstubSizeOf ia f))]
  if kernelSizeOf ia f < 500000 ∨ 15000000 < kernelSizeOf ia f then a2
  else
    let a3 := a2 ++ [(("kernel" : String), subBuf f (cm + 4096 + bootstubSizeOf ia f) (kernelSizeOf ia f))]
    if ramdiskSizeOf ia f < 10000 ∨ 300000000 < ramdiskSizeOf ia f then a3
    else a3 ++ [(("ramdisk.cpio.gz" : String),
      subBuf f (cm + 4096 + bootstubSizeOf ia f + kernelSizeOf ia f) (ramdiskSizeOf ia f))]

/-- Exit status of unpack: 1 as soon as a size field is outside its accepted range,
0 otherwise. -/
def unpackExit (ia : Nat → Nat) (f : Buf) : Nat :=
  if kernelSizeOf ia f < 500000 ∨ 15000000 < kernelSizeOf ia f then 1
  else if ramdiskSizeOf ia f < 10000 ∨ 300000000 < ramdiskSizeOf ia f then 1
  else 0

/-- mboot.c `unpack()` on an already-opened input stream. -/
def unpack (ia : Nat → Nat) (f : Buf) : UnpackOut :=
  ⟨unpackExit ia f, hdrSizeOf ia f, sigSizeOf ia f, kernelSizeOf ia f,
   ramdiskSizeOf ia f, bootstubSizeOf ia f, unpackArtifacts ia f⟩

/-- First artifact with the given name in an artifact list. -/
def lookupArt : List (String × Buf) → String → Option Buf
  | [], _ => none
  | a :: rest, n => if a.fst == n then some a.snd else lookupArt rest n

/-- The artifact of the given name written by an unpack run, if any. -/
def getArt (u : UnpackOut) (n : String) : Option Buf := lookupArt u.artifacts n

/-- Size of an optional input file (`read_file` leaves the size 0 when the file is absent). -/
def optSize : Option Buf → Nat
  | some b => b.size
  | none => 0

/-- Overwrite `len` bytes of memory `b` at offset `off` with the bytes of `src`
(models `memcpy`/`memset` into the output buffer). -/
def writeBytes (b : Nat → Nat) (off : Nat) (src : Nat → Nat) (len : Nat) : Nat → Nat :=
  fun i => if off ≤ i ∧ i < off + len then src (i - off) else b i

/-- Store a `uint32_t` value little-endian at offset `off`. -/
def writeLe32 (b : Nat → Nat) (off v : Nat) : Nat → Nat := writeBytes b off (leBytes v) 4

/-- Store a single byte at offset `off`. -/
def setByte (b : Nat → Nat) (off v : Nat) : Nat → Nat := fun i => if i = off then v else b i

/-- The 8-byte signed-padding marker `"\xBD\x02\xBD\x02\xBD\x12\xBD\x12"`. -/
def markerData : Nat → Nat := fun j => [189, 2, 189, 2, 189, 18, 189, 18].getD j 0

/-- Trailing padding to the next full 512-byte sector:
`512 - (img_size % 512) < 512 ? 512 - (img_size % 512) : 0`. -/
def padSize (n : Nat) : Nat := if n % 512 = 0 then 0 else 512 - n % 512

/-- XOR of the first `n` bytes of `b`, with the byte at offset 7 replaced by 0
(the checksum's own storage byte is zeroed before the loop). -/
def xorRange (b : Nat → Nat) : Nat → Nat
  | 0 => 0
  | n + 1 => Nat.xor (xorRange b n) (if n = 7 then 0 else b n)

/-- The header checksum of mboot.c `pack()`: XOR over the first 56 bytes with byte 7
zeroed during the computation. -/
def xor56 (b : Nat → Nat) : Nat := xorRange b 56

/-- mboot.c `pack()`, the output buffer before the final checksum byte is stored:
the sequence of `memcpy`/`memset` writes into a fresh (model: zero-initialised)
buffer, in source order: header, signature plus signed-padding marker (or the
image-type bump at offset 52 when a header is present but no signature), cmdline,
kernel/ramdisk size fields, parameter, bootstub, kernel, ramdisk, 0xFF sector
padding, and the sector count at offset 48. -/
def packPre (hdr sig : Option Buf) (cmdl pm bst krn rmd : Buf) : Nat → Nat :=
  let hs := optSize hdr
  let ss := optSize sig
  let img_size := hs + ss + 4096 + bst.size + krn.size + rmd.size
  let b0 : Nat → Nat := fun _ => 0
  let b1 := match hdr with
    | some h => writeBytes b0 0 h.data h.size
    | none => b0
  let b2 := match sig with
    | some s => writeBytes (writeBytes b1 hs s.data s.size) (hs + ss + 1040) markerData 8
    | none => match hdr with
      | some _ => writeLe32 b1 52 ((le32f b1 52 + 1) % 4294967296)
      | none => b1
  let b3 := writeBytes b2 (hs + ss) cmdl.data cmdl.size
  let b4 := writeLe32 b3 (hs + ss + 1024) (krn.size % 4294967296)
  let b5 := writeLe32 b4 (hs + ss + 1028) (rmd.size % 4294967296)
  let b6 := writeBytes b5 (hs + ss + 1032) pm.data pm.size
  let b7 := writeBytes b6 (hs + ss + 4096) bst.data bst.size
  let b8 := writeBytes b7 (hs + ss + 4096 + bst.size) krn.data krn.size
  let b9 := writeBytes b8 (hs + ss + 4096 + bst.size + krn.size) rmd.data rmd.size
  let b10 := writeBytes b9 img_size (fun _ => 255) (padSize img_size)
  match hdr with
  | some _ => writeLe32 b10 48 (((img_size + padSize img_size) / 512 - 1) % 4294967296)
  | none => b10

/-- Total size of the assembled image: computed image size plus sector padding. -/
def packTotal (hdr sig : Option Buf) (bst krn rmd : Buf) : Nat :=
  let img_size := optSize hdr + optSize sig + 4096 + bst.size + krn.size + rmd.size
  img_size + padSize img_size

/-- mboot.c `pack()`: the assembled boot image.  When a header is present the XOR
checksum of the first 56 bytes is stored at offset 7 as the last step. -/
def pack (hdr sig : Option Buf) (cmdl pm bst krn rmd : Buf) : Buf :=
  let pre := packPre hdr sig cmdl pm bst krn rmd
  match hdr with
  | some _ => ⟨packTotal hdr sig bst krn rmd, setByte pre 7 (xor56 pre)⟩
  | none => ⟨packTotal hdr sig bst krn rmd, pre⟩

/-- Repack from the artifacts an unpack run emitted (missing optional artifacts are
`none`; a missing required artifact would abort the C program, modelled by the
empty buffer default which no claim exercises). -/
def repackOf (u : UnpackOut) : Buf :=
  pack (getArt u ("hdr")) (getArt u ("sig"))
    ((getArt u ("cmdline.txt")).getD emptyBuf)
    ((getArt u ("parameter")).getD emptyBuf)
    ((getArt u ("bootstub")).getD emptyBuf)
    ((getArt u ("kernel")).getD emptyBuf)
    ((getArt u ("ramdisk.cpio.gz")).getD emptyBuf)

/-- Byte-for-byte equality of two buffers. -/
def BufEq (a b : Buf) : Prop := a.size = b.size ∧ ∀ i, i < b.size → a.data i = b.data i

/-- Offsets claim C1 excludes from its byte-for-byte comparison: the checksum byte,
the sector-count field, the image-type field and the 8-byte signed-padding marker. -/
def recomputedOffset (hs ss i : Nat) : Prop :=
  i = 7 ∨ (48 ≤ i ∧ i < 56) ∨ (hs + ss + 1040 ≤ i ∧ i < hs + ss + 1048)

/-- Byte-for-byte agreement outside the recomputed fields of claim C1. -/
def agreesExcept (out orig : Buf) (hs ss : Nat) : Prop :=
  out.size = orig.size ∧
  ∀ i, i < orig.size → ¬ recomputedOffset hs ss i → out.data i = orig.data i

/-- A 41-byte stream of the letter A (the all-printable header-less scenario of the
spec); reads past the end of the short file are modelled as returning the same byte. -/
def bufAAA : Buf := ⟨41, fun _ => 65⟩

/-- A stream with a NUL byte inside its cmdline region (offset 1537, i.e. byte 1 of the
cmdline block once the 512-byte header and 1024-byte signature are consumed). -/
def bufNulCmd : Buf := ⟨16384, fun i => if i = 1537 then 0 else 65⟩

/-- A stream whose kernel size field (bytes 2560..2563 once header and signature are
consumed) decodes to 500000 and whose ramdisk size field decodes to 0. -/
def bufBadRd : Buf :=
  ⟨16384, fun i =>
    if i = 2560 then 32 else if i = 2561 then 161 else if i = 2562 then 7
    else if 2563 ≤ i ∧ i < 2568 then 0 else 65⟩

/-- Concrete 512-byte header artifact. -/
def cxH : Buf := ⟨512, fun _ => 170⟩

/-- Concrete 1024-byte signature artifact. -/
def cxS : Buf := ⟨1024, fun _ => 171⟩

/-- Concrete 3-byte cmdline artifact with an embedded NUL: bytes 65, 0, 67. -/
def cxCmNul : Buf := ⟨3, fun i => if i = 1 then 0 else 65 + i⟩

/-- Concrete NUL-free 3-byte cmdline artifact: bytes 65, 66, 67. -/
def cxCm : Buf := ⟨3, fun i => 65 + i⟩

/-- Concrete 8-byte parameter artifact. -/
def cxPm8 : Buf := ⟨8, fun _ => 9⟩

/-- Concrete 16-byte parameter artifact with distinguishable bytes 100..115. -/
def cxPm16 : Buf := ⟨16, fun i => 100 + i⟩

/-- Concrete 4096-byte bootstub artifact. -/
def cxBst : Buf := ⟨4096, fun _ => 7⟩

/-- Concrete 500000-byte kernel artifact. -/
def cxK : Buf := ⟨500000, fun _ => 11⟩

/-- Concrete 10000-byte ramdisk artifact. -/
def cxR : Buf := ⟨10000, fun _ => 13⟩

/-- The assembled image of the C1 counterexample: header, signature and the five
required artifacts, with a NUL inside the cmdline artifact. -/
def cxOrig : Buf := pack (some cxH) (some cxS) cxCmNul cxPm8 cxBst cxK cxR

/-- The assembled image of the C1 witness: same artifacts but a NUL-free cmdline. -/
def wOrig : Buf := pack (some cxH) (some cxS) cxCm cxPm8 cxBst cxK cxR

lemma writeBytes_lt {b : Nat → Nat} {off : Nat} {src : Nat → Nat} {len i : Nat}
    (h : i < off) : writeBytes b off src len i = b i := by
  unfold writeBytes
  rw [if_neg]
  omega

lemma writeBytes_ge {b : Nat → Nat} {off : Nat} {src : Nat → Nat} {len i : Nat}
    (h : off + len ≤ i) : writeBytes b off src len i = b i := by
  unfold writeBytes
  rw [if_neg]
  omega

lemma writeBytes_out {b : Nat → Nat} {off : Nat} {src : Nat → Nat} {len i : Nat}
    (h : ¬ (off ≤ i ∧ i < off + len)) : writeBytes b off src len i = b i := by
  unfold writeBytes
  rw [if_neg h]

lemma writeBytes_in {b : Nat → Nat} {off : Nat} {src : Nat → Nat} {len i : Nat}
    (h1 : off ≤ i) (h2 : i < off + len) : writeBytes b off src len i = src (i - off) := by
  unfold writeBytes
  rw [if_pos ⟨h1, h2⟩]

lemma setByte_ne {b : Nat → Nat} {off v i : Nat} (h : i ≠ off) : setByte b off v i = b i := by
  unfold setByte
  rw [if_neg h]

lemma setByte_eq {b : Nat → Nat} {off v : Nat} : setByte b off v off = v := by
  unfold setByte
  rw [if_pos rfl]

lemma lookupArt_append_none {l1 l2 : List (String × Buf)} {n : String}
    (h : lookupArt l1 n = none) : lookupArt (l1 ++ l2) n = lookupArt l2 n := by
  induction l1 with
  | nil => simp
  | cons a rest ih =>
    rw [List.cons_append]
    simp only [lookupArt] at h ⊢
    by_cases ha : (a.fst == n) = true
    · rw [if_pos ha] at h
      exact absurd h (by simp)
    · rw [if_neg ha] at h ⊢
      exact ih h

lemma lookupArt_cons_ne {a : String × Buf} {l : List (String × Buf)} {n : String}
    (h : (a.fst == n) = false) : lookupArt (a :: l) n = lookupArt l n := by
  simp only [lookupArt]
  rw [if_neg (by simp [h])]

lemma strlenWithin_le (f : Buf) : ∀ n start, strlenWithin f start n ≤ n := by
  intro n
  induction n with
  | zero => intro start; rfl
  | succ m ih =>
    intro start
    unfold strlenWithin
    by_cases h : f.data start = 0
    · rw [if_pos h]; omega
    · rw [if_neg h]
      have := ih (start + 1)
      omega

lemma strlenWithin_eq (f : Buf) :
    ∀ n start L, L ≤ n → (∀ i, i < L → f.data (start + i) ≠ 0) →
    (L = n ∨ f.data (start + L) = 0) → strlenWithin f start n = L := by
  intro n
  induction n with
  | zero =>
    intro start L hL _ _
    interval_cases L
    rfl
  | succ m ih =>
    intro start L hL hnz hstop
    match L with
    | 0 =>
      have h0 : f.data start = 0 := by
        rcases hstop with h | h
        · omega
        · simpa using h
      unfold strlenWithin
      rw [if_pos h0]
    | Nat.succ L' =>
      have hne : f.data start ≠ 0 := by
        have := hnz 0 (by omega)
        simpa using this
      unfold strlenWithin
      rw [if_neg hne]
      have : strlenWithin f (start + 1) m = L' := by
        apply ih (start + 1) L' (by omega)
        · intro i hi
          have := hnz (i + 1) (by omega)
          have harr : start + (i + 1) = start + 1 + i := by omega
          rwa [harr] at this
        · rcases hstop with h | h
          · left; omega
          · right
            have harr : start + (L' + 1) = start + 1 + L' := by omega
            rwa [harr] at h
      omega

lemma xorRange_congr {f g : Nat → Nat} :
    ∀ n, (∀ j, j < n → j ≠ 7 → f j = g j) → xorRange f n = xorRange g n := by
  intro n
  induction n with
  | zero => intro _; rfl
  | succ m ih =>
    intro h
    unfold xorRange
    rw [ih (fun j hj hj7 => h j (by omega) hj7)]
    by_cases hm : m = 7
    · rw [if_pos hm, if_pos hm]
    · rw [if_neg hm, if_neg hm, h m (by omega) hm]

lemma xor56_congr {f g : Nat → Nat} (h : ∀ j, j < 56 → j ≠ 7 → f j = g j) :
    xor56 f = xor56 g := xorRange_congr 56 h

lemma xor56_setByte7 (b : Nat → Nat) (v : Nat) : xor56 (setByte b 7 v) = xor56 b := by
  apply xor56_congr
  intro j _ hj7
  exact setByte_ne hj7

lemma leBytes_sum (v : Nat) :
    leBytes v 0 + leBytes v 1 * 256 + leBytes v 2 * 65536 + leBytes v 3 * 16777216
      = v % 4294967296 := by
  show v % 256 + v / 256 % 256 * 256 + v / 65536 % 256 * 65536 + v / 16777216 % 256 * 16777216
      = v % 4294967296
  omega

lemma padSize_mod (n : Nat) : (n + padSize n) % 512 = 0 := by
  unfold padSize
  by_cases h : n % 512 = 0
  · rw [if_pos h]; omega
  · rw [if_neg h]; omega

lemma padSize_lt (n : Nat) : padSize n < 512 := by
  unfold padSize
  by_cases h : n % 512 = 0
  · rw [if_pos h]; omega
  · rw [if_neg h]; omega

lemma pack_size (hdr sig : Option Buf) (cmdl pm bst krn rmd : Buf) :
    (pack hdr sig cmdl pm bst krn rmd).size = packTotal hdr sig bst krn rmd := by
  cases hdr <;> rfl

lemma pack_data_some (h : Buf) (sig : Option Buf) (cmdl pm bst krn rmd : Buf) (i : Nat)
    (hi : i ≠ 7) :
    (pack (some h) sig cmdl pm bst krn rmd).data i = packPre (some h) sig cmdl pm bst krn rmd i := by
  simp only [pack]
  exact setByte_ne hi

lemma pack_data_none (sig : Option Buf) (cmdl pm bst krn rmd : Buf) (i : Nat) :
    (pack none sig cmdl pm bst krn rmd).data i = packPre none sig cmdl pm bst krn rmd i := rfl

lemma pack_data_7 (h : Buf) (sig : Option Buf) (cmdl pm bst krn rmd : Buf) :
    (pack (some h) sig cmdl pm bst krn rmd).data 7 = xor56 (packPre (some h) sig cmdl pm bst krn rmd) := by
  simp only [pack]
  exact setByte_eq

lemma pp_kernel (hdr sig : Option Buf) (cmdl pm bst krn rmd : Buf) (i : Nat)
    (hi : i < krn.size) :
    packPre hdr sig cmdl pm bst krn rmd (optSize hdr + optSize sig + 4096 + bst.size + i)
      = krn.data i := by
  rcases hdr with _ | h <;> rcases sig with _ | s <;>
      simp only [packPre, optSize, writeLe32]
  · rw [writeBytes_lt (by omega), writeBytes_lt (by omega), writeBytes_in (by omega) (by omega)]
    congr 1
    omega
  · rw [writeBytes_lt (by omega), writeBytes_lt (by omega), writeBytes_in (by omega) (by omega)]
    congr 1
    omega
  · rw [writeBytes_ge (by omega), writeBytes_lt (by omega), writeBytes_lt (by omega),
      writeBytes_in (by omega) (by omega)]
    congr 1
    omega
  · rw [writeBytes_ge (by omega), writeBytes_lt (by omega), writeBytes_lt (by omega),
      writeBytes_in (by omega) (by omega)]
    congr 1
    omega

lemma pp_ramdisk (hdr sig : Option Buf) (cmdl pm bst krn rmd : Buf) (i : Nat)
    (hi : i < rmd.size) :
    packPre hdr sig cmdl pm bst krn rmd (optSize hdr + optSize sig + 4096 + bst.size + krn.size + i)
      = rmd.data i := by
  rcases hdr with _ | h <;> rcases sig with _ | s <;>
      simp only [packPre, optSize, writeLe32]
  · rw [writeBytes_lt (by omega), writeBytes_in (by omega) (by omega)]
    congr 1
    omega
  · rw [writeBytes_lt (by omega), writeBytes_in (by omega) (by omega)]
    congr 1
    omega
  · rw [writeBytes_ge (by omega), writeBytes_lt (by omega), writeBytes_in (by omega) (by omega)]
    congr 1
    omega
  · rw [writeBytes_ge (by omega), writeBytes_lt (by omega), writeBytes_in (by omega) (by omega)]
    congr 1
    omega

lemma pp_pad (hdr sig : Option Buf) (cmdl pm bst krn rmd : Buf) (i : Nat)
    (h1 : optSize hdr + optSize sig + 4096 + bst.size + krn.size + rmd.size ≤ i)
    (h2 : i < optSize hdr + optSize sig + 4096 + bst.size + krn.size + rmd.size
      + padSize (optSize hdr + optSize sig + 4096 + bst.size + krn.size + rmd.size)) :
    packPre hdr sig cmdl pm bst krn rmd i = 255 := by
  rcases hdr with _ | h <;> rcases sig with _ | s <;>
      simp only [optSize] at h1 h2 <;>
      simp only [packPre, optSize, writeLe32]
  · rw [writeBytes_in (by omega) (by omega)]
  · rw [writeBytes_in (by omega) (by omega)]
  · rw [writeBytes_ge (show 48 + 4 ≤ i by omega), writeBytes_in (by omega) (by omega)]
  · rw [writeBytes_ge (show 48 + 4 ≤ i by omega), writeBytes_in (by omega) (by omega)]

lemma pp_ksize (hdr sig : Option Buf) (cmdl pm bst krn rmd : Buf) (j : Nat) (hj : j < 4) :
    packPre hdr sig cmdl pm bst krn rmd (optSize hdr + optSize sig + 1024 + j)
      = leBytes (krn.size % 4294967296) j := by
  rcases hdr with _ | h <;> rcases sig with _ | s <;>
      simp only [packPre, optSize, writeLe32]
  · rw [writeBytes_lt (by omega), writeBytes_lt (by omega), writeBytes_lt (by omega),
      writeBytes_lt (by omega), writeBytes_lt (by omega), writeBytes_lt (by omega),
      writeBytes_in (by omega) (by omega)]
    congr 1
    omega
  · rw [writeBytes_lt (by omega), writeBytes_lt (by omega), writeBytes_lt (by omega),
      writeBytes_lt (by omega), writeBytes_lt (by omega), writeBytes_lt (by omega),
      writeBytes_in (by omega) (by omega)]
    congr 1
    omega
  · rw [writeBytes_ge (by omega), writeBytes_lt (by omega), writeBytes_lt (by omega),
      writeBytes_lt (by omega), writeBytes_lt (by omega), writeBytes_lt (by omega),
      writeBytes_lt (by omega), writeBytes_in (by omega) (by omega)]
    congr 1
    omega
  · rw [writeBytes_ge (by omega), writeBytes_lt (by omega), writeBytes_lt (by omega),
      writeBytes_lt (by omega), writeBytes_lt (by omega), writeBytes_lt (by omega),
      writeBytes_lt (by omega), writeBytes_in (by omega) (by omega)]
    congr 1
    omega

lemma pp_rsize (hdr sig : Option Buf) (cmdl pm bst krn rmd : Buf) (j : Nat) (hj : j < 4) :
    packPre hdr sig cmdl pm bst krn rmd (optSize hdr + optSize sig + 1028 + j)
      = leBytes (rmd.size % 4294967296) j := by
  rcases hdr with _ | h <;> rcases sig with _ | s <;>
      simp only [packPre, optSize, writeLe32]
  · rw [writeBytes_lt (by omega), writeBytes_lt (by omega), writeBytes_lt (by omega),
      writeBytes_lt (by omega), writeBytes_lt (by omega),
      writeBytes_in (by omega) (by omega)]
    congr 1
    omega
  · rw [writeBytes_lt (by omega), writeBytes_lt (by omega), writeBytes_lt (by omega),
      writeBytes_lt (by omega), writeBytes_lt (by omega),
      writeBytes_in (by omega) (by omega)]
    congr 1
    omega
  · rw [writeBytes_ge (by omega), writeBytes_lt (by omega), writeBytes_lt (by omega),
      writeBytes_lt (by omega), writeBytes_lt (by omega), writeBytes_lt (by omega),
      writeBytes_in (by omega) (by omega)]
    congr 1
    omega
  · rw [writeBytes_ge (by omega), writeBytes_lt (by omega), writeBytes_lt (by omega),
      writeBytes_lt (by omega), writeBytes_lt (by omega), writeBytes_lt (by omega),
      writeBytes_in (by omega) (by omega)]
    congr 1
    omega

lemma pp_param (hdr sig : Option Buf) (cmdl pm bst krn rmd : Buf) (i : Nat)
    (hpm : pm.size ≤ 3064)
    (h1 : optSize hdr + optSize sig + 1032 ≤ i)
    (h2 : i < optSize hdr + optSize sig + 1032 + pm.size) :
    packPre hdr sig cmdl pm bst krn rmd i = pm.data (i - (optSize hdr + optSize sig + 1032)) := by
  rcases hdr with _ | h <;> rcases sig with _ | s <;>
      simp only [optSize] at h1 h2 ⊢ <;>
      simp only [packPre, optSize, writeLe32]
  · rw [writeBytes_lt (by omega), writeBytes_lt (by omega), writeBytes_lt (by omega),
      writeBytes_lt (by omega), writeBytes_in (by omega) (by omega)]
  · rw [writeBytes_lt (by omega), writeBytes_lt (by omega), writeBytes_lt (by omega),
      writeBytes_lt (by omega), writeBytes_in (by omega) (by omega)]
  · rw [writeBytes_ge (show 48 + 4 ≤ i by omega), writeBytes_lt (by omega),
      writeBytes_lt (by omega), writeBytes_lt (by omega), writeBytes_lt (by omega),
      writeBytes_in (by omega) (by omega)]
  · rw [writeBytes_ge (show 48 + 4 ≤ i by omega), writeBytes_lt (by omega),
      writeBytes_lt (by omega), writeBytes_lt (by omega), writeBytes_lt (by omega),
      writeBytes_in (by omega) (by omega)]

lemma pp_hdr (h s : Buf) (cmdl pm bst krn rmd : Buf) (i : Nat)
    (h1 : i < h.size) (h2 : ¬ (48 ≤ i ∧ i < 52)) :
    packPre (some h) (some s) cmdl pm bst krn rmd i = h.data i := by
  simp only [packPre, optSize, writeLe32]
  rw [writeBytes_out (by omega), writeBytes_lt (by omega), writeBytes_lt (by omega),
    writeBytes_lt (by omega), writeBytes_lt (by omega), writeBytes_lt (by omega),
    writeBytes_lt (by omega), writeBytes_lt (by omega), writeBytes_lt (by omega),
    writeBytes_lt (by omega), writeBytes_lt (by omega),
    writeBytes_in (by omega) (by omega), Nat.sub_zero]

lemma pp_sig (h s : Buf) (cmdl pm bst krn rmd : Buf) (i : Nat)
    (h56 : 56 ≤ h.size) (h1 : h.size ≤ i) (h2 : i < h.size + s.size) :
    packPre (some h) (some s) cmdl pm bst krn rmd i = s.data (i - h.size) := by
  simp only [packPre, optSize, writeLe32]
  rw [writeBytes_ge (by omega), writeBytes_lt (by omega), writeBytes_lt (by omega),
    writeBytes_lt (by omega), writeBytes_lt (by omega), writeBytes_lt (by omega),
    writeBytes_lt (by omega), writeBytes_lt (by omega), writeBytes_lt (by omega),
    writeBytes_lt (by omega), writeBytes_in (by omega) (by omega)]

lemma pp_cmdline (h s : Buf) (cmdl pm bst krn rmd : Buf) (i : Nat)
    (h56 : 56 ≤ h.size) (hcm : cmdl.size ≤ 1024)
    (h1 : h.size + s.size ≤ i) (h2 : i < h.size + s.size + cmdl.size) :
    packPre (some h) (some s) cmdl pm bst krn rmd i = cmdl.data (i - (h.size + s.size)) := by
  simp only [packPre, optSize, writeLe32]
  rw [writeBytes_ge (by omega), writeBytes_lt (by omega), writeBytes_lt (by omega),
    writeBytes_lt (by omega), writeBytes_lt (by omega), writeBytes_lt (by omega),
    writeBytes_lt (by omega), writeBytes_lt (by omega),
    writeBytes_in (by omega) (by omega)]

lemma pp_gap0 (h s : Buf) (cmdl pm bst krn rmd : Buf) (i : Nat)
    (h56 : 56 ≤ h.size)
    (h1 : h.size + s.size + cmdl.size ≤ i) (h2 : i < h.size + s.size + 1024) :
    packPre (some h) (some s) cmdl pm bst krn rmd i = 0 := by
  simp only [packPre, optSize, writeLe32]
  rw [writeBytes_ge (by omega), writeBytes_lt (by omega), writeBytes_lt (by omega),
    writeBytes_lt (by omega), writeBytes_lt (by omega), writeBytes_lt (by omega),
    writeBytes_lt (by omega), writeBytes_lt (by omega), writeBytes_ge (by omega),
    writeBytes_lt (by omega), writeBytes_ge (by omega), writeBytes_ge (by omega)]

lemma pp_marker (h s : Buf) (cmdl pm bst krn rmd : Buf) (j : Nat)
    (hpm : pm.size ≤ 8) (hcm : cmdl.size ≤ 1024) (hj : j < 8) :
    packPre (some h) (some s) cmdl pm bst krn rmd (h.size + s.size + 1040 + j)
      = markerData j := by
  simp only [packPre, optSize, writeLe32]
  rw [writeBytes_ge (by omega), writeBytes_lt (by omega), writeBytes_lt (by omega),
    writeBytes_lt (by omega), writeBytes_lt (by omega), writeBytes_ge (by omega),
    writeBytes_ge (by omega), writeBytes_ge (by omega), writeBytes_ge (by omega),
    writeBytes_in (by omega) (by omega)]
  congr 1
  omega

lemma pp_gap1 (h s : Buf) (cmdl pm bst krn rmd : Buf) (i : Nat)
    (hpm : pm.size = 8) (hcm : cmdl.size ≤ 1024)
    (h1 : h.size + s.size + 1048 ≤ i) (h2 : i < h.size + s.size + 4096) :
    packPre (some h) (some s) cmdl pm bst krn rmd i = 0 := by
  simp only [packPre, optSize, writeLe32]
  rw [writeBytes_ge (by omega), writeBytes_lt (by omega), writeBytes_lt (by omega),
    writeBytes_lt (by omega), writeBytes_lt (by omega), writeBytes_ge (by omega),
    writeBytes_ge (by omega), writeBytes_ge (by omega), writeBytes_ge (by omega),
    writeBytes_ge (by omega), writeBytes_ge (by omega), writeBytes_ge (by omega)]

lemma pp_bootstub (h s : Buf) (cmdl pm bst krn rmd : Buf) (i : Nat)
    (h1 : h.size + s.size + 4096 ≤ i) (h2 : i < h.size + s.size + 4096 + bst.size) :
    packPre (some h) (some s) cmdl pm bst krn rmd i = bst.data (i - (h.size + s.size + 4096)) := by
  simp only [packPre, optSize, writeLe32]
  rw [writeBytes_ge (by omega), writeBytes_lt (by omega), writeBytes_lt (by omega),
    writeBytes_lt (by omega), writeBytes_in (by omega) (by omega)]

lemma pp_sector (h : Buf) (sig : Option Buf) (cmdl pm bst krn rmd : Buf) (j : Nat)
    (hj : j < 4) :
    packPre (some h) sig cmdl pm bst krn rmd (48 + j)
      = leBytes ((packTotal (some h) sig bst krn rmd / 512 - 1) % 4294967296) j := by
  rcases sig with _ | s <;>
      simp only [packPre, packTotal, optSize, writeLe32] <;>
      rw [writeBytes_in (by omega) (by omega)] <;>
    · congr 1
      omega

lemma pack_data_ne7 (hdr sig : Option Buf) (cmdl pm bst krn rmd : Buf) (i : Nat)
    (hi : i ≠ 7) :
    (pack hdr sig cmdl pm bst krn rmd).data i = packPre hdr sig cmdl pm bst krn rmd i := by
  rcases hdr with _ | h
  · exact pack_data_none sig cmdl pm bst krn rmd i
  · exact pack_data_some h sig cmdl pm bst krn rmd i hi

lemma packTotal_mod (hdr sig : Option Buf) (bst krn rmd : Buf) :
    packTotal hdr sig bst krn rmd % 512 = 0 := by
  simp only [packTotal]
  exact padSize_mod _

lemma le32f_leBytes {b : Nat → Nat} {p v : Nat}
    (h : ∀ j, j < 4 → b (p + j) = leBytes (v % 4294967296) j) : le32f b p = v % 4294967296 := by
  have h0 := h 0 (by omega)
  have h1 := h 1 (by omega)
  have h2 := h 2 (by omega)
  have h3 := h 3 (by omega)
  rw [Nat.add_zero] at h0
  unfold le32f
  rw [h0, h1, h2, h3]
  have hs := leBytes_sum (v % 4294967296)
  rw [hs]
  omega

lemma strlenWithin_nonzero (f : Buf) :
    ∀ n start i, i < strlenWithin f start n → f.data (start + i) ≠ 0 := by
  intro n
  induction n with
  | zero =>
    intro start i hi
    exact absurd hi (by simp [strlenWithin])
  | succ m ih =>
    intro start i hi
    unfold strlenWithin at hi
    by_cases h0 : f.data start = 0
    · rw [if_pos h0] at hi
      omega
    · rw [if_neg h0] at hi
      match i with
      | 0 => simpa using h0
      | Nat.succ j =>
        have := ih (start + 1) j (by omega)
        have harr : start + (j + 1) = start + 1 + j := by omega
        rwa [harr]

lemma strlenWithin_stop (f : Buf) :
    ∀ n start, strlenWithin f start n = n ∨ f.data (start + strlenWithin f start n) = 0 := by
  intro n
  induction n with
  | zero => intro start; left; rfl
  | succ m ih =>
    intro start
    unfold strlenWithin
    by_cases h0 : f.data start = 0
    · rw [if_pos h0]
      right
      simpa using h0
    · rw [if_neg h0]
      rcases ih (start + 1) with h | h
      · left; omega
      · right
        have harr : start + (strlenWithin f (start + 1) m + 1) = start + 1 + strlenWithin f (start + 1) m := by
          omega
        rwa [harr]

/-- C10: the content probe's verdict depends only on the two bytes at the probed
position: two streams that agree on those two bytes get the same `check_byte`
verdict for the same `size` and `min` arguments, whatever the remaining window
holds and whatever `isalnum` implementation is in use. -/
theorem check_byte_two_bytes (ia : Nat → Nat) (f g : Buf) (p q size mn : Nat)
    (h0 : f.data p = g.data q) (h1 : f.data (p + 1) = g.data (q + 1)) :
    check_byte ia f p size mn = check_byte ia g q size mn := by
  unfold check_byte
  rw [h0, h1]

/-- Closed instance of `check_byte_two_bytes`: two 10-byte streams agreeing only on
their first two bytes (65, 66) but differing everywhere after get the same verdict. -/
theorem check_byte_two_bytes_applied :
    check_byte ia_glibc ⟨10, fun i => if i < 2 then 65 + i else 1⟩ 0 4 1
      = check_byte ia_glibc ⟨10, fun i => if i < 2 then 65 + i else 200⟩ 0 4 1 :=
  check_byte_two_bytes ia_glibc ⟨10, fun i => if i < 2 then 65 + i else 1⟩
    ⟨10, fun i => if i < 2 then 65 + i else 200⟩ 0 0 4 1 (by decide) (by decide)

/-- C8: when a header is present, the byte pack stores at offset 7 is the XOR of the
first 56 buffer bytes with byte 7 zeroed during the computation (`xor56` of the
pre-checksum buffer); recomputing `xor56` over the finished image returns exactly the
stored checksum byte, and more generally changing byte 7 never changes `xor56`. -/
theorem checksum_xor56 (h : Buf) (sig : Option Buf) (cmdl pm bst krn rmd : Buf) :
    (pack (some h) sig cmdl pm bst krn rmd).data 7
        = xor56 (packPre (some h) sig cmdl pm bst krn rmd) ∧
    xor56 ((pack (some h) sig cmdl pm bst krn rmd).data)
        = (pack (some h) sig cmdl pm bst krn rmd).data 7 ∧
    (∀ g : Nat → Nat, ∀ v : Nat, xor56 (setByte g 7 v) = xor56 g) := by
  refine ⟨pack_data_7 h sig cmdl pm bst krn rmd, ?_, fun g v => xor56_setByte7 g v⟩
  have hd : (pack (some h) sig cmdl pm bst krn rmd).data
      = setByte (packPre (some h) sig cmdl pm bst krn rmd) 7
          (xor56 (packPre (some h) sig cmdl pm bst krn rmd)) := rfl
  rw [hd, xor56_setByte7, setByte_eq]

/-- C7: for kernel and ramdisk artifacts of valid sizes, pack places the kernel region
at offset header_size + signature_size + 4096 + bootstub_size, the ramdisk region
immediately after it, makes the total buffer length a multiple of 512, and fills the
trailing pad bytes with 0xFF. -/
theorem pack_layout (hdr sig : Option Buf) (cmdl pm bst krn rmd : Buf)
    (hk1 : 500000 ≤ krn.size) (hk2 : krn.size ≤ 15000000)
    (hr1 : 10000 ≤ rmd.size) (hr2 : rmd.size ≤ 300000000) :
    (∀ i, i < krn.size →
      (pack hdr sig cmdl pm bst krn rmd).data (optSize hdr + optSize sig + 4096 + bst.size + i)
        = krn.data i) ∧
    (∀ i, i < rmd.size →
      (pack hdr sig cmdl pm bst krn rmd).data
          (optSize hdr + optSize sig + 4096 + bst.size + krn.size + i)
        = rmd.data i) ∧
    (pack hdr sig cmdl pm bst krn rmd).size % 512 = 0 ∧
    (∀ i, optSize hdr + optSize sig + 4096 + bst.size + krn.size + rmd.size ≤ i →
      i < (pack hdr sig cmdl pm bst krn rmd).size →
      (pack hdr sig cmdl pm bst krn rmd).data i = 255) := by
  refine ⟨?_, ?_, ?_, ?_⟩
  · intro i hi
    rw [pack_data_ne7 hdr sig cmdl pm bst krn rmd _ (by omega)]
    exact pp_kernel hdr sig cmdl pm bst krn rmd i hi
  · intro i hi
    rw [pack_data_ne7 hdr sig cmdl pm bst krn rmd _ (by omega)]
    exact pp_ramdisk hdr sig cmdl pm bst krn rmd i hi
  · rw [pack_size]
    exact packTotal_mod hdr sig bst krn rmd
  · intro i h1 h2
    rw [pack_size] at h2
    simp only [packTotal] at h2
    rw [pack_data_ne7 hdr sig cmdl pm bst krn rmd _ (by omega)]
    exact pp_pad hdr sig cmdl pm bst krn rmd i h1 h2

/-- Closed instance of `pack_layout` at a concrete set of artifacts: a 4096-byte
bootstub, 500000-byte kernel and 10000-byte ramdisk with no header or signature. -/
theorem pack_layout_applied :
    (∀ i, i < cxK.size →
      (pack none none cxCm cxPm8 cxBst cxK cxR).data
          (optSize (none : Option Buf) + optSize (none : Option Buf) + 4096 + cxBst.size + i)
        = cxK.data i) ∧
    (∀ i, i < cxR.size →
      (pack none none cxCm cxPm8 cxBst cxK cxR).data
          (optSize (none : Option Buf) + optSize (none : Option Buf) + 4096 + cxBst.size + cxK.size + i)
        = cxR.data i) ∧
    (pack none none cxCm cxPm8 cxBst cxK cxR).size % 512 = 0 ∧
    (∀ i, optSize (none : Option Buf) + optSize (none : Option Buf) + 4096 + cxBst.size + cxK.size + cxR.size ≤ i →
      i < (pack none none cxCm cxPm8 cxBst cxK cxR).size →
      (pack none none cxCm cxPm8 cxBst cxK cxR).data i = 255) :=
  pack_layout none none cxCm cxPm8 cxBst cxK cxR (by decide) (by decide) (by decide) (by decide)

/-- C9 amended: pack writes the parameter artifact's bytes in full starting at buffer
offset header_size + signature_size + 1032 (provided the artifact fits in front of the
bootstub block), and the 4-byte fields at offsets + 1024 and + 1028 hold the kernel
and ramdisk artifact lengths as uint32 values. -/
theorem parameter_bytes (hdr sig : Option Buf) (cmdl pm bst krn rmd : Buf)
    (hpm : pm.size ≤ 3064) :
    (∀ j, j < pm.size →
      (pack hdr sig cmdl pm bst krn rmd).data (optSize hdr + optSize sig + 1032 + j)
        = pm.data j) ∧
    le32 (pack hdr sig cmdl pm bst krn rmd) (optSize hdr + optSize sig + 1024)
      = krn.size % 4294967296 ∧
    le32 (pack hdr sig cmdl pm bst krn rmd) (optSize hdr + optSize sig + 1028)
      = rmd.size % 4294967296 := by
  refine ⟨?_, ?_, ?_⟩
  · intro j hj
    rw [pack_data_ne7 hdr sig cmdl pm bst krn rmd _ (by omega)]
    rw [pp_param hdr sig cmdl pm bst krn rmd _ hpm (by omega) (by omega)]
    congr 1
    omega
  · unfold le32
    apply le32f_leBytes
    intro j hj
    rw [pack_data_ne7 hdr sig cmdl pm bst krn rmd _ (by omega)]
    exact pp_ksize hdr sig cmdl pm bst krn rmd j hj
  · unfold le32
    apply le32f_leBytes
    intro j hj
    rw [pack_data_ne7 hdr sig cmdl pm bst krn rmd _ (by omega)]
    exact pp_rsize hdr sig cmdl pm bst krn rmd j hj

lemma getArt_hdr (ia : Nat → Nat) (f : Buf) :
    getArt (unpack ia f) ("hdr")
      = if check_byte ia f 0 4 1 then none else some (subBuf f 0 512) := by
  simp only [getArt, unpack, unpackArtifacts]
  by_cases h1 : check_byte ia f 0 4 1 = true <;>
    by_cases h2 : 0 < sigSizeOf ia f <;>
    by_cases h3 : kernelSizeOf ia f < 500000 ∨ 15000000 < kernelSizeOf ia f <;>
    by_cases h4 : ramdiskSizeOf ia f < 10000 ∨ 300000000 < ramdiskSizeOf ia f <;>
    simp [h1, h2, h3, h4, lookupArt]

lemma getArt_sig (ia : Nat → Nat) (f : Buf) :
    getArt (unpack ia f) ("sig")
      = if 0 < sigSizeOf ia f then some (subBuf f (hdrSizeOf ia f) (sigSizeOf ia f)) else none := by
  simp only [getArt, unpack, unpackArtifacts]
  by_cases h1 : check_byte ia f 0 4 1 = true <;>
    by_cases h2 : 0 < sigSizeOf ia f <;>
    by_cases h3 : kernelSizeOf ia f < 500000 ∨ 15000000 < kernelSizeOf ia f <;>
    by_cases h4 : ramdiskSizeOf ia f < 10000 ∨ 300000000 < ramdiskSizeOf ia f <;>
    simp [h1, h2, h3, h4, lookupArt]

lemma getArt_cmdline (ia : Nat → Nat) (f : Buf) :
    getArt (unpack ia f) ("cmdline.txt")
      = some (subBuf f (cmOf ia f) (strlenWithin f (cmOf ia f) 1024)) := by
  simp only [getArt, unpack, unpackArtifacts, cmOf]
  by_cases h1 : check_byte ia f 0 4 1 = true <;>
    by_cases h2 : 0 < sigSizeOf ia f <;>
    by_cases h3 : kernelSizeOf ia f < 500000 ∨ 15000000 < kernelSizeOf ia f <;>
    by_cases h4 : ramdiskSizeOf ia f < 10000 ∨ 300000000 < ramdiskSizeOf ia f <;>
    simp [h1, h2, h3, h4, lookupArt]

lemma getArt_parameter (ia : Nat → Nat) (f : Buf) :
    getArt (unpack ia f) ("parameter") = some (subBuf f (cmOf ia f + 1032) 8) := by
  simp only [getArt, unpack, unpackArtifacts, cmOf]
  by_cases h1 : check_byte ia f 0 4 1 = true <;>
    by_cases h2 : 0 < sigSizeOf ia f <;>
    by_cases h3 : kernelSizeOf ia f < 500000 ∨ 15000000 < kernelSizeOf ia f <;>
    by_cases h4 : ramdiskSizeOf ia f < 10000 ∨ 300000000 < ramdiskSizeOf ia f <;>
    simp [h1, h2, h3, h4, lookupArt]

lemma getArt_bootstub (ia : Nat → Nat) (f : Buf) :
    getArt (unpack ia f) ("bootstub")
      = some (subBuf f (cmOf ia f + 4096) (bootstubSizeOf ia f)) := by
  simp only [getArt, unpack, unpackArtifacts, cmOf]
  by_cases h1 : check_byte ia f 0 4 1 = true <;>
    by_cases h2 : 0 < sigSizeOf ia f <;>
    by_cases h3 : kernelSizeOf ia f < 500000 ∨ 15000000 < kernelSizeOf ia f <;>
    by_cases h4 : ramdiskSizeOf ia f < 10000 ∨ 300000000 < ramdiskSizeOf ia f <;>
    simp [h1, h2, h3, h4, lookupArt]

lemma getArt_kernel (ia : Nat → Nat) (f : Buf) :
    getArt (unpack ia f) ("kernel")
      = if kernelSizeOf ia f < 500000 ∨ 15000000 < kernelSizeOf ia f then none
        else some (subBuf f (cmOf ia f + 4096 + bootstubSizeOf ia f) (kernelSizeOf ia f)) := by
  simp only [getArt, unpack, unpackArtifacts, cmOf]
  by_cases h1 : check_byte ia f 0 4 1 = true <;>
    by_cases h2 : 0 < sigSizeOf ia f <;>
    by_cases h3 : kernelSizeOf ia f < 500000 ∨ 15000000 < kernelSizeOf ia f <;>
    by_cases h4 : ramdiskSizeOf ia f < 10000 ∨ 300000000 < ramdiskSizeOf ia f <;>
    simp [h1, h2, h3, h4, lookupArt]

lemma getArt_ramdisk (ia : Nat → Nat) (f : Buf) :
    getArt (unpack ia f) ("ramdisk.cpio.gz")
      = if kernelSizeOf ia f < 500000 ∨ 15000000 < kernelSizeOf ia f then none
        else if ramdiskSizeOf ia f < 10000 ∨ 300000000 < ramdiskSizeOf ia f then none
        else some (subBuf f (cmOf ia f + 4096 + bootstubSizeOf ia f + kernelSizeOf ia f)
          (ramdiskSizeOf ia f)) := by
  simp only [getArt, unpack, unpackArtifacts, cmOf]
  by_cases h1 : check_byte ia f 0 4 1 = true <;>
    by_cases h2 : 0 < sigSizeOf ia f <;>
    by_cases h3 : kernelSizeOf ia f < 500000 ∨ 15000000 < kernelSizeOf ia f <;>
    by_cases h4 : ramdiskSizeOf ia f < 10000 ∨ 300000000 < ramdiskSizeOf ia f <;>
    simp [h1, h2, h3, h4, lookupArt]

/-- C2 amended: the cmdline artifact is the 1024-byte cmdline region truncated at its
first NUL byte (the longest NUL-free prefix): every byte before the cut is non-NUL and
the cut is either the full 1024 bytes or sits on a NUL byte. -/
theorem cmdline_truncated (ia : Nat → Nat) (f : Buf) :
    getArt (unpack ia f) ("cmdline.txt")
      = some (subBuf f (cmOf ia f) (strlenWithin f (cmOf ia f) 1024)) ∧
    strlenWithin f (cmOf ia f) 1024 ≤ 1024 ∧
    (∀ i, i < strlenWithin f (cmOf ia f) 1024 → f.data (cmOf ia f + i) ≠ 0) ∧
    (strlenWithin f (cmOf ia f) 1024 = 1024 ∨
      f.data (cmOf ia f + strlenWithin f (cmOf ia f) 1024) = 0) :=
  ⟨getArt_cmdline ia f, strlenWithin_le f 1024 (cmOf ia f),
   fun i hi => strlenWithin_nonzero f 1024 (cmOf ia f) i hi,
   strlenWithin_stop f 1024 (cmOf ia f)⟩

/-- C2 is false as stated: on a stream whose cmdline region starts with a non-NUL byte
followed by a NUL, the emitted cmdline artifact holds 1 byte, not 1024. -/
theorem cmdline_claim_false :
    (getArt (unpack ia_glibc bufNulCmd) ("cmdline.txt")).map Buf.size = some 1 ∧
    ¬ ((getArt (unpack ia_glibc bufNulCmd) ("cmdline.txt")).map Buf.size = some 1024) := by
  decide

/-- C3 amended: the polarity is the reverse of the claim: a positive probe at offset 0
means the header is absent (0 bytes, nothing emitted), a negative probe makes unpack
emit the 512-byte header region and continue from offset 512. -/
theorem header_probe (ia : Nat → Nat) (f : Buf) :
    (check_byte ia f 0 4 1 = true →
      (unpack ia f).hdr_size = 0 ∧ getArt (unpack ia f) ("hdr") = none) ∧
    (check_byte ia f 0 4 1 = false →
      (unpack ia f).hdr_size = 512 ∧ getArt (unpack ia f) ("hdr") = some (subBuf f 0 512)) := by
  constructor
  · intro hc
    constructor
    · show hdrSizeOf ia f = 0
      simp [hdrSizeOf, hc]
    · rw [getArt_hdr, if_pos hc]
  · intro hc
    constructor
    · show hdrSizeOf ia f = 512
      simp [hdrSizeOf, hc]
    · rw [getArt_hdr, if_neg (by simp [hc])]

/-- Closed instance of `header_probe`: a positive probe (isalnum returning 2) on the
41-byte text stream gives no header, the glibc probe on the same stream is negative
and gives a 512-byte header. -/
theorem header_probe_applied :
    ((unpack iaTwo bufAAA).hdr_size = 0 ∧ getArt (unpack iaTwo bufAAA) ("hdr") = none) ∧
    ((unpack ia_glibc bufAAA).hdr_size = 512 ∧
      getArt (unpack ia_glibc bufAAA) ("hdr") = some (subBuf bufAAA 0 512)) :=
  ⟨(header_probe iaTwo bufAAA).1 (by decide), (header_probe ia_glibc bufAAA).2 (by decide)⟩

/-- C3 is false as stated: on the all-alphanumeric 41-byte stream the probe is negative,
yet a 512-byte header region is emitted (the claim says a negative probe means the
header is absent with the stream staying at offset 0). -/
theorem header_probe_claim_false :
    check_byte ia_glibc bufAAA 0 4 1 = false ∧
    (unpack ia_glibc bufAAA).hdr_size = 512 ∧
    (getArt (unpack ia_glibc bufAAA) ("hdr")).map Buf.size = some 512 := by
  decide

/-- C4 amended: the deltas are cumulative seeks, so the signature sizes unpack can
locate are 0, 480, 728 or 1024 bytes; when the size is 0 no sig artifact is emitted. -/
theorem sig_sizes (ia : Nat → Nat) (f : Buf) :
    ((unpack ia f).sig_size = 0 ∨ (unpack ia f).sig_size = 480 ∨
      (unpack ia f).sig_size = 728 ∨ (unpack ia f).sig_size = 1024) ∧
    ((unpack ia f).sig_size = 0 → getArt (unpack ia f) ("sig") = none) := by
  have hs : (unpack ia f).sig_size = sigSizeOf ia f := rfl
  rw [hs]
  constructor
  · unfold sigSizeOf sig_end
    split_ifs <;> omega
  · intro h0
    rw [getArt_sig, if_neg (by omega)]

/-- Closed instance of `sig_sizes`: with an isalnum returning 2 the very first probe
fires, the located signature size is 0 and no sig artifact is emitted. -/
theorem sig_sizes_applied : getArt (unpack iaTwo bufAAA) ("sig") = none :=
  (sig_sizes iaTwo bufAAA).2 (by decide)

/-- C4 is false as stated: on the 41-byte text stream the located signature size is
1024, which is none of the claimed values 0, 480, 248, 296. -/
theorem sig_sizes_claim_false :
    (unpack ia_glibc bufAAA).sig_size = 1024 ∧
    ¬ ((unpack ia_glibc bufAAA).sig_size = 0 ∨ (unpack ia_glibc bufAAA).sig_size = 480 ∨
      (unpack ia_glibc bufAAA).sig_size = 248 ∨ (unpack ia_glibc bufAAA).sig_size = 296) := by
  decide

/-- C5 amended: the bootstub size is 4096 or 8192 bytes, and it is doubled to 8192
exactly when the 2-byte min-0 probe at the 4096-byte mark after the fixed 4096-byte
cmdline/parameter block is positive (not when it fails). -/
theorem bootstub_probe (ia : Nat → Nat) (f : Buf) :
    ((unpack ia f).bootstub_size = 4096 ∨ (unpack ia f).bootstub_size = 8192) ∧
    (check_byte ia f (hdrSizeOf ia f + sigSizeOf ia f + 8192) 2 0 = true →
      (unpack ia f).bootstub_size = 8192) ∧
    (check_byte ia f (hdrSizeOf ia f + sigSizeOf ia f + 8192) 2 0 = false →
      (unpack ia f).bootstub_size = 4096) ∧
    getArt (unpack ia f) ("bootstub")
      = some (subBuf f (hdrSizeOf ia f + sigSizeOf ia f + 4096) ((unpack ia f).bootstub_size)) := by
  have hb : (unpack ia f).bootstub_size = bootstubSizeOf ia f := rfl
  rw [hb]
  refine ⟨?_, ?_, ?_, ?_⟩
  · unfold bootstubSizeOf
    split_ifs <;> omega
  · intro hc
    unfold bootstubSizeOf cmOf
    rw [if_pos hc]
  · intro hc
    unfold bootstubSizeOf cmOf
    rw [if_neg (by simp [hc])]
  · exact getArt_bootstub ia f

/-- Closed instance of `bootstub_probe`: the glibc probe on the text stream is negative
giving a 4096-byte bootstub; a Boolean isalnum makes the probe positive and doubles it. -/
theorem bootstub_probe_applied :
    (unpack ia_glibc bufAAA).bootstub_size = 4096 ∧
    (unpack iaOne bufAAA).bootstub_size = 8192 :=
  ⟨(bootstub_probe ia_glibc bufAAA).2.2.1 (by decide),
   (bootstub_probe iaOne bufAAA).2.1 (by decide)⟩

/-- C5 is false as stated: on the 41-byte text stream the 2-byte probe fails and yet
the bootstub is not doubled (it stays 4096, while the claim says a failed probe means
doubling to 8192). -/
theorem bootstub_probe_claim_false :
    check_byte ia_glibc bufAAA
        (hdrSizeOf ia_glibc bufAAA + sigSizeOf ia_glibc bufAAA + 8192) 2 0 = false ∧
    (unpack ia_glibc bufAAA).bootstub_size = 4096 := by
  decide

/-- C6: a kernel size field outside [500000, 15000000] makes unpack fail with exit
status 1 before any kernel (or ramdisk) artifact is emitted, and a ramdisk size field
outside [10000, 300000000] makes it fail before any ramdisk artifact is emitted. -/
theorem size_range_errors (ia : Nat → Nat) (f : Buf) :
    ((unpack ia f).kernel_size < 500000 ∨ 15000000 < (unpack ia f).kernel_size →
      (unpack ia f).exit = 1 ∧ getArt (unpack ia f) ("kernel") = none ∧
      getArt (unpack ia f) ("ramdisk.cpio.gz") = none) ∧
    ((unpack ia f).ramdisk_size < 10000 ∨ 300000000 < (unpack ia f).ramdisk_size →
      (unpack ia f).exit = 1 ∧ getArt (unpack ia f) ("ramdisk.cpio.gz") = none) := by
  have hk : (unpack ia f).kernel_size = kernelSizeOf ia f := rfl
  have hr : (unpack ia f).ramdisk_size = ramdiskSizeOf ia f := rfl
  have he : (unpack ia f).exit = unpackExit ia f := rfl
  rw [hk, hr, he]
  constructor
  · intro hbad
    refine ⟨?_, ?_, ?_⟩
    · unfold unpackExit
      rw [if_pos hbad]
    · rw [getArt_kernel, if_pos hbad]
    · rw [getArt_ramdisk, if_pos hbad]
  · intro hbad
    constructor
    · unfold unpackExit
      by_cases hkb : kernelSizeOf ia f < 500000 ∨ 15000000 < kernelSizeOf ia f
      · rw [if_pos hkb]
      · rw [if_neg hkb, if_pos hbad]
    · rw [getArt_ramdisk]
      by_cases hkb : kernelSizeOf ia f < 500000 ∨ 15000000 < kernelSizeOf ia f
      · rw [if_pos hkb]
      · rw [if_neg hkb, if_pos hbad]

/-- Closed instance of `size_range_errors`: the text stream decodes a kernel size of
1094795585 (out of range), so unpack exits 1 with no kernel and no ramdisk artifact;
a stream with kernel size 500000 but ramdisk size 0 exits 1 with no ramdisk artifact. -/
theorem size_range_errors_applied :
    ((unpack ia_glibc bufAAA).exit = 1 ∧ getArt (unpack ia_glibc bufAAA) ("kernel") = none ∧
      getArt (unpack ia_glibc bufAAA) ("ramdisk.cpio.gz") = none) ∧
    ((unpack ia_glibc bufBadRd).exit = 1 ∧
      getArt (unpack ia_glibc bufBadRd) ("ramdisk.cpio.gz") = none) :=
  ⟨(size_range_errors ia_glibc bufAAA).1 (by decide),
   (size_range_errors ia_glibc bufBadRd).2 (by decide)⟩

/-- Closed instance of `parameter_bytes`: a 16-byte parameter artifact is copied in
full at offset 1032 of a headerless, signatureless image, and the two size fields
hold the kernel and ramdisk artifact lengths. -/
theorem parameter_bytes_applied :
    (∀ j, j < cxPm16.size →
      (pack none none cxCm cxPm16 cxBst cxK cxR).data
          (optSize (none : Option Buf) + optSize (none : Option Buf) + 1032 + j)
        = cxPm16.data j) ∧
    le32 (pack none none cxCm cxPm16 cxBst cxK cxR)
        (optSize (none : Option Buf) + optSize (none : Option Buf) + 1024)
      = cxK.size % 4294967296 ∧
    le32 (pack none none cxCm cxPm16 cxBst cxK cxR)
        (optSize (none : Option Buf) + optSize (none : Option Buf) + 1028)
      = cxR.size % 4294967296 :=
  parameter_bytes none none cxCm cxPm16 cxBst cxK cxR (by decide)

/-- C9 is false as stated: with a 16-byte parameter artifact whose bytes are 100..115,
the claim predicts byte 108 (the artifact's byte 8) at buffer offset 1032 of a
headerless, signatureless image, but pack writes byte 100 (the artifact's byte 0)
there: the whole artifact is copied at 1032, not only the part after the size fields. -/
theorem parameter_claim_false :
    ¬ (∀ j, j < cxPm16.size - 8 →
      (pack none none cxCm cxPm16 cxBst cxK cxR).data (1032 + j) = cxPm16.data (8 + j)) := by
  intro hcl
  have h0 := hcl 0 (by decide)
  exact absurd h0 (by decide)

lemma repack_pointwise (h s cmdl pm bst krn rmd O : Buf)
    (hO : O = pack (some h) (some s) cmdl pm bst krn rmd)
    (hh : h.size = 512) (hcm : cmdl.size ≤ 1024) (hpm : pm.size = 8)
    (i : Nat) (hi7 : i ≠ 7)
    (hi : i < 512 + s.size + 4096 + bst.size + krn.size + rmd.size
      + padSize (512 + s.size + 4096 + bst.size + krn.size + rmd.size)) :
    packPre (some (subBuf O 0 512)) (some (subBuf O 512 s.size))
        (subBuf O (512 + s.size) cmdl.size) (subBuf O (512 + s.size + 1032) 8)
        (subBuf O (512 + s.size + 4096) bst.size)
        (subBuf O (512 + s.size + 4096 + bst.size) krn.size)
        (subBuf O (512 + s.size + 4096 + bst.size + krn.size) rmd.size) i
      = packPre (some h) (some s) cmdl pm bst krn rmd i := by
  have sd : ∀ a L x : Nat, (subBuf O a L).data x = O.data (a + x) := fun _ _ _ => rfl
  have sz1 : (subBuf O 0 512).size = 512 := rfl
  have sz2 : (subBuf O 512 s.size).size = s.size := rfl
  have sz3 : (subBuf O (512 + s.size) cmdl.size).size = cmdl.size := rfl
  have sz4 : (subBuf O (512 + s.size + 1032) 8).size = 8 := rfl
  have sz5 : (subBuf O (512 + s.size + 4096) bst.size).size = bst.size := rfl
  have sz6 : (subBuf O (512 + s.size + 4096 + bst.size) krn.size).size = krn.size := rfl
  have sz7 : (subBuf O (512 + s.size + 4096 + bst.size + krn.size) rmd.size).size = rmd.size := rfl
  have hOd : ∀ j : Nat, j ≠ 7 →
      O.data j = packPre (some h) (some s) cmdl pm bst krn rmd j := by
    intro j hj
    rw [hO]
    exact pack_data_ne7 (some h) (some s) cmdl pm bst krn rmd j hj
  have eT : packTotal (some (subBuf O 0 512)) (some (subBuf O 512 s.size))
      (subBuf O (512 + s.size + 4096) bst.size)
      (subBuf O (512 + s.size + 4096 + bst.size) krn.size)
      (subBuf O (512 + s.size + 4096 + bst.size + krn.size) rmd.size)
      = packTotal (some h) (some s) bst krn rmd := by
    simp only [packTotal, optSize, sz1, sz2, sz5, sz6, sz7, hh]
  by_cases c2 : 48 ≤ i ∧ i < 52
  · -- sector-count field, recomputed identically on both sides
    have h48 : 48 + (i - 48) = i := by omega
    have hpR := pp_sector (subBuf O 0 512) (some (subBuf O 512 s.size))
      (subBuf O (512 + s.size) cmdl.size) (subBuf O (512 + s.size + 1032) 8)
      (subBuf O (512 + s.size + 4096) bst.size)
      (subBuf O (512 + s.size + 4096 + bst.size) krn.size)
      (subBuf O (512 + s.size + 4096 + bst.size + krn.size) rmd.size) (i - 48) (by omega)
    have hpO := pp_sector h (some s) cmdl pm bst krn rmd (i - 48) (by omega)
    rw [h48] at hpR hpO
    rw [hpR, hpO, eT]
  by_cases c1 : i < 512
  · -- header region: the repacked hdr artifact reads O at the same offset
    have hpR := pp_hdr (subBuf O 0 512) (subBuf O 512 s.size)
      (subBuf O (512 + s.size) cmdl.size) (subBuf O (512 + s.size + 1032) 8)
      (subBuf O (512 + s.size + 4096) bst.size)
      (subBuf O (512 + s.size + 4096 + bst.size) krn.size)
      (subBuf O (512 + s.size + 4096 + bst.size + krn.size) rmd.size) i
      (by rw [sz1]; omega) c2
    rw [hpR, sd, Nat.zero_add, hOd i hi7]
  by_cases c3 : i < 512 + s.size
  · -- signature region
    have hpR := pp_sig (subBuf O 0 512) (subBuf O 512 s.size)
      (subBuf O (512 + s.size) cmdl.size) (subBuf O (512 + s.size + 1032) 8)
      (subBuf O (512 + s.size + 4096) bst.size)
      (subBuf O (512 + s.size + 4096 + bst.size) krn.size)
      (subBuf O (512 + s.size + 4096 + bst.size + krn.size) rmd.size) i
      (by rw [sz1]; omega) (by rw [sz1]; omega) (by rw [sz1, sz2]; omega)
    rw [sz1] at hpR
    have harr : 512 + (i - 512) = i := by omega
    rw [hpR, sd, harr, hOd i hi7]
  by_cases c4 : i < 512 + s.size + cmdl.size
  · -- cmdline region
    have hpR := pp_cmdline (subBuf O 0 512) (subBuf O 512 s.size)
      (subBuf O (512 + s.size) cmdl.size) (subBuf O (512 + s.size + 1032) 8)
      (subBuf O (512 + s.size + 4096) bst.size)
      (subBuf O (512 + s.size + 4096 + bst.size) krn.size)
      (subBuf O (512 + s.size + 4096 + bst.size + krn.size) rmd.size) i
      (by rw [sz1]; omega) (by rw [sz3]; omega) (by rw [sz1, sz2]; omega)
      (by rw [sz1, sz2, sz3]; omega)
    rw [sz1, sz2] at hpR
    have harr : 512 + s.size + (i - (512 + s.size)) = i := by omega
    rw [hpR, sd, harr, hOd i hi7]
  by_cases c5 : i < 512 + s.size + 1024
  · -- zero filler between cmdline and the size fields
    have hpR := pp_gap0 (subBuf O 0 512) (subBuf O 512 s.size)
      (subBuf O (512 + s.size) cmdl.size) (subBuf O (512 + s.size + 1032) 8)
      (subBuf O (512 + s.size + 4096) bst.size)
      (subBuf O (512 + s.size + 4096 + bst.size) krn.size)
      (subBuf O (512 + s.size + 4096 + bst.size + krn.size) rmd.size) i
      (by rw [sz1]; omega) (by rw [sz1, sz2, sz3]; omega) (by rw [sz1, sz2]; omega)
    have hpO := pp_gap0 h s cmdl pm bst krn rmd i (by omega) (by omega) (by omega)
    rw [hpR, hpO]
  by_cases c6 : i < 512 + s.size + 1028
  · -- kernel-size field, written from the artifact sizes on both sides
    have harr : 512 + s.size + 1024 + (i - (512 + s.size + 1024)) = i := by omega
    have hpR := pp_ksize (some (subBuf O 0 512)) (some (subBuf O 512 s.size))
      (subBuf O (512 + s.size) cmdl.size) (subBuf O (512 + s.size + 1032) 8)
      (subBuf O (512 + s.size + 4096) bst.size)
      (subBuf O (512 + s.size + 4096 + bst.size) krn.size)
      (subBuf O (512 + s.size + 4096 + bst.size + krn.size) rmd.size)
      (i - (512 + s.size + 1024)) (by omega)
    have hpO := pp_ksize (some h) (some s) cmdl pm bst krn rmd
      (i - (512 + s.size + 1024)) (by omega)
    simp only [optSize, sz1, sz2, sz6] at hpR
    simp only [optSize, hh] at hpO
    rw [harr] at hpR hpO
    rw [hpR, hpO]
  by_cases c7 : i < 512 + s.size + 1032
  · -- ramdisk-size field
    have harr : 512 + s.size + 1028 + (i - (512 + s.size + 1028)) = i := by omega
    have hpR := pp_rsize (some (subBuf O 0 512)) (some (subBuf O 512 s.size))
      (subBuf O (512 + s.size) cmdl.size) (subBuf O (512 + s.size + 1032) 8)
      (subBuf O (512 + s.size + 4096) bst.size)
      (subBuf O (512 + s.size + 4096 + bst.size) krn.size)
      (subBuf O (512 + s.size + 4096 + bst.size + krn.size) rmd.size)
      (i - (512 + s.size + 1028)) (by omega)
    have hpO := pp_rsize (some h) (some s) cmdl pm bst krn rmd
      (i - (512 + s.size + 1028)) (by omega)
    simp only [optSize, sz1, sz2, sz7] at hpR
    simp only [optSize, hh] at hpO
    rw [harr] at hpR hpO
    rw [hpR, hpO]
  by_cases c8 : i < 512 + s.size + 1040
  · -- parameter region (8 bytes on the repack side)
    have hpR := pp_param (some (subBuf O 0 512)) (some (subBuf O 512 s.size))
      (subBuf O (512 + s.size) cmdl.size) (subBuf O (512 + s.size + 1032) 8)
      (subBuf O (512 + s.size + 4096) bst.size)
      (subBuf O (512 + s.size + 4096 + bst.size) krn.size)
      (subBuf O (512 + s.size + 4096 + bst.size + krn.size) rmd.size) i
      (by rw [sz4]; omega) (by simp only [optSize, sz1, sz2]; omega)
      (by simp only [optSize, sz1, sz2, sz4]; omega)
    simp only [optSize, sz1, sz2] at hpR
    have harr : 512 + s.size + 1032 + (i - (512 + s.size + 1032)) = i := by omega
    rw [hpR, sd, harr, hOd i hi7]
  by_cases c9 : i < 512 + s.size + 1048
  · -- signed-padding marker, written identically on both sides
    have harr : 512 + s.size + 1040 + (i - (512 + s.size + 1040)) = i := by omega
    have hpR := pp_marker (subBuf O 0 512) (subBuf O 512 s.size)
      (subBuf O (512 + s.size) cmdl.size) (subBuf O (512 + s.size + 1032) 8)
      (subBuf O (512 + s.size + 4096) bst.size)
      (subBuf O (512 + s.size + 4096 + bst.size) krn.size)
      (subBuf O (512 + s.size + 4096 + bst.size + krn.size) rmd.size)
      (i - (512 + s.size + 1040)) (by rw [sz4]) (by rw [sz3]; omega) (by omega)
    have hpO := pp_marker h s cmdl pm bst krn rmd (i - (512 + s.size + 1040))
      (by omega) (by omega) (by omega)
    rw [sz1, sz2] at hpR
    rw [hh] at hpO
    rw [harr] at hpR hpO
    rw [hpR, hpO]
  by_cases c10 : i < 512 + s.size + 4096
  · -- zero filler between the marker and the bootstub
    have hpR := pp_gap1 (subBuf O 0 512) (subBuf O 512 s.size)
      (subBuf O (512 + s.size) cmdl.size) (subBuf O (512 + s.size + 1032) 8)
      (subBuf O (512 + s.size + 4096) bst.size)
      (subBuf O (512 + s.size + 4096 + bst.size) krn.size)
      (subBuf O (512 + s.size + 4096 + bst.size + krn.size) rmd.size) i
      (by rw [sz4]) (by rw [sz3]; omega) (by rw [sz1, sz2]; omega) (by rw [sz1, sz2]; omega)
    have hpO := pp_gap1 h s cmdl pm bst krn rmd i hpm (by omega) (by omega) (by omega)
    rw [hpR, hpO]
  by_cases c11 : i < 512 + s.size + 4096 + bst.size
  · -- bootstub region
    have hpR := pp_bootstub (subBuf O 0 512) (subBuf O 512 s.size)
      (subBuf O (512 + s.size) cmdl.size) (subBuf O (512 + s.size + 1032) 8)
      (subBuf O (512 + s.size + 4096) bst.size)
      (subBuf O (512 + s.size + 4096 + bst.size) krn.size)
      (subBuf O (512 + s.size + 4096 + bst.size + krn.size) rmd.size) i
      (by rw [sz1, sz2]; omega) (by rw [sz1, sz2, sz5]; omega)
    rw [sz1, sz2] at hpR
    have harr : 512 + s.size + 4096 + (i - (512 + s.size + 4096)) = i := by omega
    rw [hpR, sd, harr, hOd i hi7]
  by_cases c12 : i < 512 + s.size + 4096 + bst.size + krn.size
  · -- kernel region
    have harr : 512 + s.size + 4096 + bst.size
        + (i - (512 + s.size + 4096 + bst.size)) = i := by omega
    have hpR := pp_kernel (some (subBuf O 0 512)) (some (subBuf O 512 s.size))
      (subBuf O (512 + s.size) cmdl.size) (subBuf O (512 + s.size + 1032) 8)
      (subBuf O (512 + s.size + 4096) bst.size)
      (subBuf O (512 + s.size + 4096 + bst.size) krn.size)
      (subBuf O (512 + s.size + 4096 + bst.size + krn.size) rmd.size)
      (i - (512 + s.size + 4096 + bst.size)) (by rw [sz6]; omega)
    simp only [optSize, sz1, sz2, sz5] at hpR
    rw [harr] at hpR
    rw [hpR, sd, harr, hOd i hi7]
  by_cases c13 : i < 512 + s.size + 4096 + bst.size + krn.size + rmd.size
  · -- ramdisk region
    have harr : 512 + s.size + 4096 + bst.size + krn.size
        + (i - (512 + s.size + 4096 + bst.size + krn.size)) = i := by omega
    have hpR := pp_ramdisk (some (subBuf O 0 512)) (some (subBuf O 512 s.size))
      (subBuf O (512 + s.size) cmdl.size) (subBuf O (512 + s.size + 1032) 8)
      (subBuf O (512 + s.size + 4096) bst.size)
      (subBuf O (512 + s.size + 4096 + bst.size) krn.size)
      (subBuf O (512 + s.size + 4096 + bst.size + krn.size) rmd.size)
      (i - (512 + s.size + 4096 + bst.size + krn.size)) (by rw [sz7]; omega)
    simp only [optSize, sz1, sz2, sz5, sz6] at hpR
    rw [harr] at hpR
    rw [hpR, sd, harr, hOd i hi7]
  · -- 0xFF sector padding
    have hpR := pp_pad (some (subBuf O 0 512)) (some (subBuf O 512 s.size))
      (subBuf O (512 + s.size) cmdl.size) (subBuf O (512 + s.size + 1032) 8)
      (subBuf O (512 + s.size + 4096) bst.size)
      (subBuf O (512 + s.size + 4096 + bst.size) krn.size)
      (subBuf O (512 + s.size + 4096 + bst.size + krn.size) rmd.size) i
      (by simp only [optSize, sz1, sz2, sz5, sz6, sz7]; omega)
      (by simp only [optSize, sz1, sz2, sz5, sz6, sz7]; omega)
    have hpO := pp_pad (some h) (some s) cmdl pm bst krn rmd i
      (by simp only [optSize, hh]; omega)
      (by simp only [optSize, hh]; omega)
    rw [hpR, hpO]

/-- C1 amended: for an image assembled by pack from a 512-byte header, a nonempty
signature, a NUL-free cmdline of at most 1024 bytes, an 8-byte parameter artifact, a
4096- or 8192-byte bootstub and kernel/ramdisk artifacts in their valid ranges, and
whose content makes the three boundary probes agree with the actual layout (header
probe negative, signature scan stopping at the signature's end, bootstub probe
positive exactly for the 8192-byte bootstub), unpack succeeds and repacking its
artifacts reproduces the original image byte-for-byte — in particular the recomputed
sector-count, checksum, image-type and signed-padding-marker fields coincide, since
the original was produced by the same formulas. -/
theorem unpack_pack_roundtrip (ia : Nat → Nat) (h s cmdl pm bst krn rmd O : Buf)
    (hO : O = pack (some h) (some s) cmdl pm bst krn rmd)
    (hh : h.size = 512) (hs0 : 0 < s.size)
    (hcm : cmdl.size ≤ 1024) (hcmnz : ∀ i, i < cmdl.size → cmdl.data i ≠ 0)
    (hpm : pm.size = 8) (hbst : bst.size = 4096 ∨ bst.size = 8192)
    (hk1 : 500000 ≤ krn.size) (hk2 : krn.size ≤ 15000000)
    (hr1 : 10000 ≤ rmd.size) (hr2 : rmd.size ≤ 300000000)
    (hprobe0 : check_byte ia O 0 4 1 = false)
    (hprobeSig : sig_end ia O 512 = 512 + s.size)
    (hprobeBst : check_byte ia O (512 + s.size + 8192) 2 0 = true ↔ bst.size = 8192) :
    (unpack ia O).exit = 0 ∧ BufEq (repackOf (unpack ia O)) O := by
  have hOd : ∀ j : Nat, j ≠ 7 →
      O.data j = packPre (some h) (some s) cmdl pm bst krn rmd j := by
    intro j hj
    conv_lhs => rw [hO]
    exact pack_data_ne7 (some h) (some s) cmdl pm bst krn rmd j hj
  have e1 : hdrSizeOf ia O = 512 := by
    simp [hdrSizeOf, hprobe0]
  have e2 : sigSizeOf ia O = s.size := by
    unfold sigSizeOf
    rw [e1, hprobeSig]
    omega
  have ecm : cmOf ia O = 512 + s.size := by
    unfold cmOf
    rw [e1, e2]
  have strl : strlenWithin O (512 + s.size) 1024 = cmdl.size := by
    apply strlenWithin_eq O 1024 (512 + s.size) cmdl.size hcm
    · intro i hi
      have hp := pp_cmdline h s cmdl pm bst krn rmd (512 + s.size + i)
        (by omega) hcm (by omega) (by omega)
      rw [hOd (512 + s.size + i) (by omega), hp]
      have harr : 512 + s.size + i - (h.size + s.size) = i := by omega
      rw [harr]
      exact hcmnz i hi
    · by_cases hce : cmdl.size = 1024
      · left
        exact hce
      · right
        have hp := pp_gap0 h s cmdl pm bst krn rmd (512 + s.size + cmdl.size)
          (by omega) (by omega) (by omega)
        rw [hOd (512 + s.size + cmdl.size) (by omega), hp]
  have ek : kernelSizeOf ia O = krn.size := by
    unfold kernelSizeOf le32
    rw [ecm]
    have hle : le32f O.data (512 + s.size + 1024) = krn.size % 4294967296 := by
      apply le32f_leBytes
      intro j hj
      rw [hOd (512 + s.size + 1024 + j) (by omega)]
      have hp := pp_ksize (some h) (some s) cmdl pm bst krn rmd j hj
      simp only [optSize, hh] at hp
      exact hp
    rw [hle]
    omega
  have er : ramdiskSizeOf ia O = rmd.size := by
    unfold ramdiskSizeOf le32
    rw [ecm]
    have hle : le32f O.data (512 + s.size + 1028) = rmd.size % 4294967296 := by
      apply le32f_leBytes
      intro j hj
      rw [hOd (512 + s.size + 1028 + j) (by omega)]
      have hp := pp_rsize (some h) (some s) cmdl pm bst krn rmd j hj
      simp only [optSize, hh] at hp
      exact hp
    rw [hle]
    omega
  have ebst : bootstubSizeOf ia O = bst.size := by
    unfold bootstubSizeOf
    rw [ecm]
    rcases hbst with hb | hb
    · have hc : check_byte ia O (512 + s.size + 8192) 2 0 = false := by
        cases hcb : check_byte ia O (512 + s.size + 8192) 2 0
        · rfl
        · exact absurd (hprobeBst.mp hcb) (by omega)
      simp [hc, hb]
    · have hc := hprobeBst.mpr hb
      simp [hc, hb]
  have eexit : (unpack ia O).exit = 0 := by
    show unpackExit ia O = 0
    unfold unpackExit
    rw [ek, er, if_neg (by omega), if_neg (by omega)]
  have gH : getArt (unpack ia O) ("hdr") = some (subBuf O 0 512) := by
    rw [getArt_hdr]
    simp [hprobe0]
  have gS : getArt (unpack ia O) ("sig") = some (subBuf O 512 s.size) := by
    rw [getArt_sig, e2, e1, if_pos hs0]
  have gC : getArt (unpack ia O) ("cmdline.txt")
      = some (subBuf O (512 + s.size) cmdl.size) := by
    rw [getArt_cmdline, ecm, strl]
  have gP : getArt (unpack ia O) ("parameter")
      = some (subBuf O (512 + s.size + 1032) 8) := by
    rw [getArt_parameter, ecm]
  have gB : getArt (unpack ia O) ("bootstub")
      = some (subBuf O (512 + s.size + 4096) bst.size) := by
    rw [getArt_bootstub, ecm, ebst]
  have gK : getArt (unpack ia O) ("kernel")
      = some (subBuf O (512 + s.size + 4096 + bst.size) krn.size) := by
    rw [getArt_kernel, ek, ecm, ebst, if_neg (by omega)]
  have gR : getArt (unpack ia O) ("ramdisk.cpio.gz")
      = some (subBuf O (512 + s.size + 4096 + bst.size + krn.size) rmd.size) := by
    rw [getArt_ramdisk, ek, er, ecm, ebst, if_neg (by omega), if_neg (by omega)]
  have eRep : repackOf (unpack ia O)
      = pack (some (subBuf O 0 512)) (some (subBuf O 512 s.size))
          (subBuf O (512 + s.size) cmdl.size) (subBuf O (512 + s.size + 1032) 8)
          (subBuf O (512 + s.size + 4096) bst.size)
          (subBuf O (512 + s.size + 4096 + bst.size) krn.size)
          (subBuf O (512 + s.size + 4096 + bst.size + krn.size) rmd.size) := by
    unfold repackOf
    rw [gH, gS, gC, gP, gB, gK, gR]
    rfl
  have sz1 : (subBuf O 0 512).size = 512 := rfl
  have sz2 : (subBuf O 512 s.size).size = s.size := rfl
  have sz5 : (subBuf O (512 + s.size + 4096) bst.size).size = bst.size := rfl
  have sz6 : (subBuf O (512 + s.size + 4096 + bst.size) krn.size).size = krn.size := rfl
  have sz7 : (subBuf O (512 + s.size + 4096 + bst.size + krn.size) rmd.size).size = rmd.size := rfl
  have eT : packTotal (some (subBuf O 0 512)) (some (subBuf O 512 s.size))
      (subBuf O (512 + s.size + 4096) bst.size)
      (subBuf O (512 + s.size + 4096 + bst.size) krn.size)
      (subBuf O (512 + s.size + 4096 + bst.size + krn.size) rmd.size)
      = packTotal (some h) (some s) bst krn rmd := by
    simp only [packTotal, optSize, sz1, sz2, sz5, sz6, sz7, hh]
  refine ⟨eexit, ?_, ?_⟩
  · rw [eRep, pack_size, eT]
    conv_rhs => rw [hO, pack_size]
  · intro i hi
    have hiN : i < 512 + s.size + 4096 + bst.size + krn.size + rmd.size
        + padSize (512 + s.size + 4096 + bst.size + krn.size + rmd.size) := by
      rw [hO, pack_size] at hi
      simp only [packTotal, optSize, hh] at hi
      exact hi
    by_cases hi7 : i = 7
    · subst hi7
      have hR7 : (repackOf (unpack ia O)).data 7
          = xor56 (packPre (some (subBuf O 0 512)) (some (subBuf O 512 s.size))
              (subBuf O (512 + s.size) cmdl.size) (subBuf O (512 + s.size + 1032) 8)
              (subBuf O (512 + s.size + 4096) bst.size)
              (subBuf O (512 + s.size + 4096 + bst.size) krn.size)
              (subBuf O (512 + s.size + 4096 + bst.size + krn.size) rmd.size)) := by
        rw [eRep]
        exact pack_data_7 (subBuf O 0 512) (some (subBuf O 512 s.size)) _ _ _ _ _
      have hO7 : O.data 7 = xor56 (packPre (some h) (some s) cmdl pm bst krn rmd) := by
        conv_lhs => rw [hO]
        exact pack_data_7 h (some s) cmdl pm bst krn rmd
      rw [hR7, hO7]
      apply xor56_congr
      intro j hj hj7
      exact repack_pointwise h s cmdl pm bst krn rmd O hO hh hcm hpm j hj7 (by omega)
    · have hR : (repackOf (unpack ia O)).data i
          = packPre (some (subBuf O 0 512)) (some (subBuf O 512 s.size))
              (subBuf O (512 + s.size) cmdl.size) (subBuf O (512 + s.size + 1032) 8)
              (subBuf O (512 + s.size + 4096) bst.size)
              (subBuf O (512 + s.size + 4096 + bst.size) krn.size)
              (subBuf O (512 + s.size + 4096 + bst.size + krn.size) rmd.size) i := by
        rw [eRep]
        exact pack_data_ne7 _ _ _ _ _ _ _ i hi7
      rw [hR, hOd i hi7]
      exact repack_pointwise h s cmdl pm bst krn rmd O hO hh hcm hpm i hi7 hiN

/-- Closed instance of `unpack_pack_roundtrip`: the concrete signed image with a
NUL-free 3-byte cmdline, 1024-byte signature, 4096-byte bootstub, 500000-byte kernel
and 10000-byte ramdisk round-trips byte-for-byte under the glibc probes. -/
theorem unpack_pack_roundtrip_applied :
    (unpack ia_glibc wOrig).exit = 0 ∧ BufEq (repackOf (unpack ia_glibc wOrig)) wOrig :=
  unpack_pack_roundtrip ia_glibc cxH cxS cxCm cxPm8 cxBst cxK cxR wOrig rfl
    (by decide) (by decide) (by decide) (by decide) (by decide) (by decide)
    (by decide) (by decide) (by decide) (by decide) (by decide) (by decide) (by decide)

/-- C1 is false as stated: the assembled image `cxOrig` has a header, a signature and
the five required regions with kernel 500000 and ramdisk 10000 bytes, yet running
unpack then pack loses the byte after the NUL inside its cmdline region: byte 1538 of
the repack is 0 while byte 1538 of the original is 67, and offset 1538 is none of the
recomputed fields the claim excludes. -/
theorem roundtrip_claim_false :
    ¬ agreesExcept (repackOf (unpack ia_glibc cxOrig)) cxOrig 512 1024 := by
  intro hag
  have hd := hag.2 1538 (by decide) (by unfold recomputedOffset; decide)
  exact absurd hd (by decide)

/-- Closed instance of `cmdline_truncated` on the stream with a NUL at byte 1 of its
cmdline region. -/
theorem cmdline_truncated_applied :
    getArt (unpack ia_glibc bufNulCmd) ("cmdline.txt")
      = some (subBuf bufNulCmd (cmOf ia_glibc bufNulCmd)
          (strlenWithin bufNulCmd (cmOf ia_glibc bufNulCmd) 1024)) ∧
    strlenWithin bufNulCmd (cmOf ia_glibc bufNulCmd) 1024 ≤ 1024 ∧
    (∀ i, i < strlenWithin bufNulCmd (cmOf ia_glibc bufNulCmd) 1024 →
      bufNulCmd.data (cmOf ia_glibc bufNulCmd + i) ≠ 0) ∧
    (strlenWithin bufNulCmd (cmOf ia_glibc bufNulCmd) 1024 = 1024 ∨
      bufNulCmd.data (cmOf ia_glibc bufNulCmd
        + strlenWithin bufNulCmd (cmOf ia_glibc bufNulCmd) 1024) = 0) :=
  cmdline_truncated ia_glibc bufNulCmd

/-- Closed instance of `checksum_xor56` at a concrete header and artifact set. -/
theorem checksum_xor56_applied :
    (pack (some cxH) none cxCm cxPm8 cxBst cxK cxR).data 7
        = xor56 (packPre (some cxH) none cxCm cxPm8 cxBst cxK cxR) ∧
    xor56 ((pack (some cxH) none cxCm cxPm8 cxBst cxK cxR).data)
        = (pack (some cxH) none cxCm cxPm8 cxBst cxK cxR).data 7 ∧
    (∀ g : Nat → Nat, ∀ v : Nat, xor56 (setByte g 7 v) = xor56 g) :=
  checksum_xor56 cxH none cxCm cxPm8 cxBst cxK cxR
